import Mathlib

/-!
Verification of `periodictable/formulas.py` (chemical formula parser and
Formula value algebra) against its natural-language specification.

The Python source is shallowly embedded: real numbers computed with Python
floats are modelled by exact rationals (`ℚ`), so algebraic identities are
stated exactly instead of "up to floating-point tolerance"; Python `dict`
tallies are modelled by association lists in first-insertion order (the
mapping they denote is order-independent); code paths that raise exceptions
are modelled with `Except`.  The file is Python 2 code, which matters in two
places noted below (the `mix_by_weight` pair filter and default object
comparison).
-/

/-- One record of the external periodic-table database (the Atom Resolver
boundary): a chemical element, its natural-abundance mass, its intrinsic
density when the table has one, its covalent radius, and the isotopes the
table resolves for it (mass number paired with isotope mass).  The numeric
values used below are representative rational stand-ins for the database's
floats; no claim depends on the precise figures, only on the operations. -/
structure ElementData where
  symbol : String
  mass : ℚ
  density : Option ℚ
  covalentRadius : ℚ
  isotopes : List (ℕ × ℚ)
deriving DecidableEq, Repr

/-- An atomic unit as resolved by the database: either an element
(`isotope = none`) or a specific isotope (`isotope = some massNumber`).
`elementMass` models `unit.element.mass` for an isotope; for a plain element
the source's `AttributeError` fallback makes it the unit's own mass.
`ownSymbol` models `'symbol' in unit.__dict__` (true only for the special
isotopes D and T, which carry their own symbol; false for every unit used
here). -/
structure AtomicUnit where
  symbol : String
  isotope : Option ℕ
  mass : ℚ
  elementMass : ℚ
  density : Option ℚ
  covalentRadius : ℚ
  ownSymbol : Bool
deriving DecidableEq, Repr

/-- `unit = table.symbol(sym)`: the atomic unit for a natural element. -/
def unitOfElement (e : ElementData) : AtomicUnit :=
  { symbol := e.symbol, isotope := none, mass := e.mass, elementMass := e.mass,
    density := e.density, covalentRadius := e.covalentRadius, ownSymbol := false }

/-- `unit = table.symbol(sym)[massNumber]`: the atomic unit for an isotope
with the given isotope mass. -/
def unitOfIsotope (e : ElementData) (massNumber : ℕ) (isoMass : ℚ) : AtomicUnit :=
  { symbol := e.symbol, isotope := some massNumber, mass := isoMass, elementMass := e.mass,
    density := e.density, covalentRadius := e.covalentRadius, ownSymbol := false }

/-- A fragment of a formula tree: a leaf atomic unit, or a nested sequence of
(multiplier, fragment) nodes.  This is the two-variant shape that the source
probes with `_isatom` / sequence duck-typing. -/
inductive Frag where
  | atom : AtomicUnit → Frag
  | group : List (ℚ × Frag) → Frag

/-- A Formula value: `{structure, density, name}`.  The Python attribute
`structure` is the Lean keyword, hence `struct`. -/
structure FormulaVal where
  struct : List (ℚ × Frag)
  density : Option ℚ
  name : Option String

/-- Python dict update `total[el] = total.get(el, 0) + c`: add `c` to the
entry for `u`, appending a fresh entry on first insertion. -/
def addCount (t : List (AtomicUnit × ℚ)) (u : AtomicUnit) (c : ℚ) :
    List (AtomicUnit × ℚ) :=
  match t with
  | [] => [(u, c)]
  | (v, d) :: rest => if v = u then (v, d + c) :: rest else (v, d) :: addCount rest u c

mutual

/-- `_count_atoms(seq)`: traverse the tree left to right accumulating the
total count per atomic unit into `total`. -/
def count_atoms_aux : List (ℚ × Frag) → List (AtomicUnit × ℚ) → List (AtomicUnit × ℚ)
  | [], total => total
  | (c, f) :: rest, total => count_atoms_aux rest (count_atoms_node c f total)
termination_by structural s => s

/-- One iteration of the `_count_atoms` loop: compute the node's partial
tally (`{fragment: 1}` for a leaf, the recursive tally for a subtree) and
merge every entry into `total` scaled by the node's count. -/
def count_atoms_node : ℚ → Frag → List (AtomicUnit × ℚ) → List (AtomicUnit × ℚ)
  | c, Frag.atom a, total => addCount total a (1 * c)
  | c, Frag.group g, total =>
      (count_atoms_aux g []).foldl (fun t p => addCount t p.1 (p.2 * c)) total
termination_by structural _ f => f

end

/-- The atom tally of a tree (`Formula.atoms`), as an association list read
as a finite mapping. -/
def count_atoms (seq : List (ℚ × Frag)) : List (AtomicUnit × ℚ) :=
  count_atoms_aux seq []

/-- `Formula.mass`: `Σ unit.mass * count` over the tally. -/
def mass (f : FormulaVal) : ℚ :=
  (count_atoms f.struct).foldl (fun m p => m + p.1.mass * p.2) 0

/-- Python truthiness of an optional float (`if density:`): false for `None`
and for `0`. -/
def truthyQ : Option ℚ → Bool
  | none => false
  | some x => decide (x ≠ 0)

/-- Python truthiness of an optional string (`if name:`): false for `None`
and for the empty string. -/
def truthyS : Option String → Bool
  | none => false
  | some s => decide (s ≠ "")

/-- Checked division: Python `a / b`, raising `ZeroDivisionError` (the only
exception the mixture bodies and density setters can raise, modelled as the
`Unit` error) when `b = 0`. -/
def zdiv (a b : ℚ) : Except Unit ℚ :=
  if b = 0 then .error () else .ok (a / b)

/-- `natural_mass_ratio()`: sum of natural-abundance masses divided by sum of
isotope masses over the tally (`el.element.mass` falls back to `el.mass` for
a plain element, which is the `elementMass` field). -/
def natural_mass_rel (f : FormulaVal) : Except Unit ℚ :=
  let t := count_atoms f.struct
  zdiv (t.foldl (fun s p => s + p.2 * p.1.elementMass) 0)
       (t.foldl (fun s p => s + p.2 * p.1.mass) 0)

/-- `_get_natural_density`: `self.density / self.natural_mass_ratio()`;
modelled for formulas whose density is set (this claim's scope — a `None`
density would raise `TypeError` in Python, folded into the same error). -/
def get_natural_density (f : FormulaVal) : Except Unit ℚ := do
  let r ← natural_mass_rel f
  match f.density with
  | some d => zdiv d r
  | none => .error ()

/-- `_set_natural_density`: the source assigns
`self.density = natural_density / self.natural_mass_ratio()` (a division,
exactly as written on line 325). -/
def set_natural_density (f : FormulaVal) (nd : ℚ) : Except Unit FormulaVal := do
  let r ← natural_mass_rel f
  let d ← zdiv nd r
  pure { f with density := some d }

/-- Python 2 `cmp` on integers. -/
def pycmpInt (a b : ℤ) : ℤ :=
  if a < b then -1 else if a = b then 0 else 1

/-- Python 2 `cmp` on strings (lexicographic; agrees with `compare` on the
ASCII symbols used here). -/
def pycmpStr (a b : String) : ℤ :=
  match compare a b with
  | .lt => -1
  | .eq => 0
  | .gt => 1

/-- `_hill_compare(a, b)`: equal symbols compare by isotope number (0 for a
non-isotope); else if `a.symbol in ("C", "H")` then by symbol when `b` is
also C/H and `-1` otherwise; else by symbol. -/
def hill_compare (a b : AtomicUnit) : ℤ :=
  if a.symbol = b.symbol then
    pycmpInt (match a.isotope with | some i => (i : ℤ) | none => 0)
             (match b.isotope with | some i => (i : ℤ) | none => 0)
  else if a.symbol = "C" ∨ a.symbol = "H" then
    if b.symbol = "C" ∨ b.symbol = "H" then pycmpStr a.symbol b.symbol else -1
  else pycmpStr a.symbol b.symbol

/-- The `"%g" % count` numeric format for multipliers: an integral value
prints with no decimal point (trailing `.0` suppressed).  Only integral
multipliers are rendered in this development; a non-integral multiplier
falls back to the exact rational's own printing (the float rounding of `%g`
is outside the model). -/
def fmtG (q : ℚ) : String :=
  if q.den = 1 then toString q.num else toString q

mutual

/-- `_str_atoms(seq)`: concatenate the rendering of each node in order. -/
def str_atoms : List (ℚ × Frag) → String
  | [] => ""
  | (c, f) :: rest => str_atoms_node c f ++ str_atoms rest
termination_by structural s => s

/-- One iteration of the `_str_atoms` loop: a leaf prints its symbol
(`Sym[iso]` for an isotope without its own symbol attribute) followed by its
count when the count is not 1; an internal node prints its children's
rendering bare when its count is 1, and parenthesized with the count
suffixed otherwise. -/
def str_atoms_node : ℚ → Frag → String
  | c, Frag.atom a =>
      (if a.isotope.isSome && !a.ownSymbol then
        a.symbol ++ "[" ++ toString (a.isotope.getD 0) ++ "]"
      else a.symbol)
      ++ (if c ≠ 1 then fmtG c else "")
  | c, Frag.group g =>
      if c = 1 then str_atoms g else "(" ++ str_atoms g ++ ")" ++ fmtG c
termination_by structural _ f => f

end

/-- `Formula.__add__`: a fresh `Formula()` (density `None`, name `None`)
whose structure is the concatenation of the two operands' structures. -/
def add (a b : FormulaVal) : FormulaVal :=
  { struct := a.struct ++ b.struct, density := none, name := none }

/-- `Formula.__rmul__` (`n * a`): a copy of `a` (density and name included);
when `n != 1` and the structure is nonempty, a single top-level node has its
multiplier scaled, and any longer structure is wrapped in the single node
`(n, a.structure)`. -/
def rmul (n : ℚ) (a : FormulaVal) : FormulaVal :=
  if n = 1 then a
  else
    match a.struct with
    | [] => a
    | [(q, f)] => { a with struct := [(n * q, f)] }
    | s => { a with struct := [(n, Frag.group s)] }

/-- The errors a mixture synthesizer call can surface: the volume
precondition `ValueError("Need a density for each formula")`, or a
`ZeroDivisionError` from one of the quotients in the body. -/
inductive MixErr where
  | needDensity : MixErr
  | zeroDivision : MixErr
deriving DecidableEq, Repr

/-- Python 2 comparison `formula > 0` as it occurs in the `mix_by_weight`
filter `[(q,f) for q,f in pairs if q > 0]`: the comprehension unpacks each
(formula, quantity) pair binding `q` to the *Formula* object, and in Python 2
default ordering every instance compares greater than every number, so the
test is identically true and the rebuilt pair list is unchanged. -/
def formula_gt_zero (_f : FormulaVal) : Bool := true

/-- `min` of a nonempty Python sequence (left fold; the empty case is never
reached, both call sites guard on a nonempty list). -/
def listMin : List ℚ → ℚ
  | [] => 0
  | x :: xs => xs.foldl min x

/-- The shared tail of both synthesizers, lines 84-91 and 162-169: apply the
`natural_density`, `density` and `name` overrides in that order (each only
when truthy, `natural_density` through the density setter). -/
def applyOverrides (r : FormulaVal) (density naturalDensity : Option ℚ)
    (name : Option String) : Except Unit FormulaVal := do
  let r ← match naturalDensity with
          | some nd => if nd ≠ 0 then set_natural_density r nd else pure r
          | none => pure r
  let r := if truthyQ density then { r with density := density } else r
  let r := if truthyS name then { r with name := name } else r
  pure r

/-- The body of `mix_by_weight` after argument unpacking: the (no-op, see
`formula_gt_zero`) quantity filter, the scale `min(q/f.mass)`, the
accumulation `result += ((q/f.mass)/scale) * f` into an empty Formula, the
overrides, and the density derivation
`result.mass / (Σ q/f.density / scale)` performed when the result has no
truthy density and every component does.  Every division is checked; the
only Python exception this body raises is `ZeroDivisionError`. -/
def mix_weight_core (pairs0 : List (FormulaVal × ℚ))
    (density naturalDensity : Option ℚ) (name : Option String) :
    Except Unit FormulaVal := do
  let pairs := pairs0.filter fun p => formula_gt_zero p.1
  let (struct, scale) ←
    match pairs with
    | [] => pure (([] : List (ℚ × Frag)), (1 : ℚ))
    | _ => do
      let ns ← pairs.mapM fun p => zdiv p.2 (mass p.1)
      let scale := listMin ns
      let struct ← pairs.foldlM (fun acc p => do
          let n ← zdiv p.2 (mass p.1)
          let coeff ← zdiv n scale
          pure (acc ++ (rmul coeff p.1).struct)) ([] : List (ℚ × Frag))
      pure (struct, scale)
  let r : FormulaVal := { struct := struct, density := none, name := none }
  let r ← applyOverrides r density naturalDensity name
  if !truthyQ r.density && pairs.all fun p => truthyQ p.1.density then
    let vterms ← pairs.mapM fun p => zdiv p.2 (p.1.density.getD 0)
    let volume ← zdiv (vterms.foldl (· + ·) 0) scale
    let d ← zdiv (mass r) volume
    pure { r with density := some d }
  else
    pure r

/-- `mix_by_weight(...)` on an even-length, already-unpacked pair list, with
the `density` / `natural_density` / `name` keyword overrides.  Any
`ZeroDivisionError` of the body surfaces as `MixErr.zeroDivision`. -/
def mix_by_weight (pairs0 : List (FormulaVal × ℚ))
    (density naturalDensity : Option ℚ) (name : Option String) :
    Except MixErr FormulaVal :=
  (mix_weight_core pairs0 density naturalDensity name).mapError fun _ => MixErr.zeroDivision

/-- The body of `mix_by_volume` after its density precondition: the (correct,
in this function) `q > 0` filter, the scale `min(q*f.density/f.mass)`, the
accumulation `result += ((q*f.density/f.mass)/scale) * f`, the overrides, and
the density derivation `result.mass / (Σ q / scale)` when the result has no
truthy density.  The only Python exception this body raises is
`ZeroDivisionError`. -/
def mix_volume_core (pairs0 : List (FormulaVal × ℚ))
    (density naturalDensity : Option ℚ) (name : Option String) :
    Except Unit FormulaVal := do
  let pairs := pairs0.filter fun p => decide (0 < p.2)
  let (struct, scale) ←
    match pairs with
    | [] => pure (([] : List (ℚ × Frag)), (1 : ℚ))
    | _ => do
      let ns ← pairs.mapM fun p => zdiv (p.2 * p.1.density.getD 0) (mass p.1)
      let scale := listMin ns
      let struct ← pairs.foldlM (fun acc p => do
          let n ← zdiv (p.2 * p.1.density.getD 0) (mass p.1)
          let coeff ← zdiv n scale
          pure (acc ++ (rmul coeff p.1).struct)) ([] : List (ℚ × Frag))
      pure (struct, scale)
  let r : FormulaVal := { struct := struct, density := none, name := none }
  let r ← applyOverrides r density naturalDensity name
  if !truthyQ r.density then
    let volume ← zdiv (pairs.foldl (fun s p => s + p.2) 0) scale
    let d ← zdiv (mass r) volume
    pure { r with density := some d }
  else
    pure r

/-- `mix_by_volume(...)`: before anything else (dropping included) it checks
`all(f.density for f,_ in pairs)` over the full pair list and raises
`ValueError("Need a density for each formula")` when that fails; otherwise it
runs the body, whose only exception is `ZeroDivisionError`. -/
def mix_by_volume (pairs0 : List (FormulaVal × ℚ))
    (density naturalDensity : Option ℚ) (name : Option String) :
    Except MixErr FormulaVal :=
  if pairs0.all fun p => truthyQ p.1.density then
    (mix_volume_core pairs0 density naturalDensity name).mapError fun _ => MixErr.zeroDivision
  else
    .error MixErr.needDensity

/-- A parse failure: `syn` is a pyparsing `ParseException` (recoverable — an
enclosing `Optional` / `MatchFirst` / repetition catches it and tries its
other branch), while `hard` is a `ValueError` raised inside a parse action
(unknown symbol, bad isotope), which aborts the whole parse.  `hard` also
covers fuel exhaustion of the model's recursion, never reached on inputs of
length below the fuel supplied at top level. -/
inductive PErr where
  | syn : PErr
  | hard : String → PErr
deriving DecidableEq, Repr

/-- The pyparsing default whitespace characters (`" \n\t"`). -/
def isWS (c : Char) : Bool := c = ' ' ∨ c = '\n' ∨ c = '\t'

/-- Skip leading whitespace, as a pyparsing element's `preParse` does. -/
def skipWS : List Char → List Char
  | [] => []
  | c :: cs => if isWS c then skipWS cs else c :: cs

/-- Longest prefix of lowercase letters, for the symbol regex tail. -/
def spanLower : List Char → List Char × List Char
  | [] => ([], [])
  | c :: cs =>
      if 'a' ≤ c ∧ c ≤ 'z' then
        let (ls, r) := spanLower cs
        (c :: ls, r)
      else ([], c :: cs)

/-- Longest prefix of decimal digits. -/
def spanDigits : List Char → List Char × List Char
  | [] => ([], [])
  | c :: cs =>
      if c.isDigit then
        let (ds, r) := spanDigits cs
        (c :: ds, r)
      else ([], c :: cs)

/-- Numeric value of a digit string. -/
def digitsToNat (ds : List Char) : ℕ :=
  ds.foldl (fun n c => 10 * n + (c.toNat - '0'.toNat)) 0

/-- The symbol regex `[A-Z][a-z]*`, matched at the current position. -/
def parseSymbol : List Char → Option (String × List Char)
  | [] => none
  | c :: cs =>
      if 'A' ≤ c ∧ c ≤ 'Z' then
        let (ls, r) := spanLower cs
        some (String.mk (c :: ls), r)
      else none

/-- The regex `[1-9][0-9]*` (the `whole` count and the isotope number). -/
def parseNat19 : List Char → Option (ℕ × List Char)
  | [] => none
  | c :: cs =>
      if '1' ≤ c ∧ c ≤ '9' then
        let (ds, r) := spanDigits cs
        some (digitsToNat (c :: ds), r)
      else none

/-- The `fract` regex `(0|[1-9][0-9]*|)([.][0-9]*)`: an optional integer part
(a lone `0`, or a digit run not starting with 0, or nothing) followed by a
mandatory point and optional fraction digits; its parse action takes the
float value of the match. -/
def parseFract (s : List Char) : Option (ℚ × List Char) :=
  let ipRest :=
    match s with
    | '0' :: cs => ([('0' : Char)], cs)
    | c :: cs =>
        if '1' ≤ c ∧ c ≤ '9' then
          let (ds, r) := spanDigits cs
          (c :: ds, r)
        else ([], s)
    | [] => ([], ([] : List Char))
  match ipRest.2 with
  | '.' :: cs =>
      let (fs, r) := spanDigits cs
      some ((digitsToNat ipRest.1 : ℚ) + (digitsToNat fs : ℚ) / ((10 : ℚ) ^ fs.length), r)
  | _ => none

/-- `count = Optional(~White() + (fract | whole), default=1)`: no leading
whitespace is skipped (`NotAny(White())` fails on whitespace and the
enclosing `And`/`Optional` inherit its no-skip behaviour), `fract` is tried
before `whole`, and any failure yields the default 1 with no input
consumed. -/
def parseCountOpt (s : List Char) : ℚ × List Char :=
  match s with
  | [] => (1, [])
  | c :: _ =>
      if isWS c then (1, s)
      else
        match parseFract s with
        | some (v, r) => (v, r)
        | none =>
            match parseNat19 s with
            | some (n, r) => ((n : ℕ) , r)
            | none => (1, s)

/-- `isotope = Optional(~White() + '[' + Regex("[1-9][0-9]*") + ']',
default='0')`: only attempted when `[` directly abuts the symbol (whitespace
makes the lookahead fail); inside the brackets pyparsing's ordinary
whitespace skipping applies; any failure yields the default 0 with no input
consumed. -/
def parseIsotopeOpt (s : List Char) : ℕ × List Char :=
  match s with
  | '[' :: cs =>
      (match parseNat19 (skipWS cs) with
       | some (n, r) =>
           (match skipWS r with
            | ']' :: r2 => (n, r2)
            | _ => (0, s))
       | none => (0, s))
  | _ => (0, s)

/-- `element = symbol + isotope + count` with the `convert_element` action:
leading whitespace is skipped (the symbol regex is an ordinary token), the
symbol is resolved against the table (`ValueError` for an unknown symbol
aborts the parse), a nonzero isotope number is looked up in the element
(`ValueError` when the element has no such isotope), and the result is the
node `(count, unit)`. -/
def parseElement (tbl : List ElementData) (s : List Char) :
    Except PErr ((ℚ × Frag) × List Char) :=
  let s1 := skipWS s
  match parseSymbol s1 with
  | none => .error .syn
  | some (sym, r1) =>
      match tbl.find? (fun e => e.symbol = sym) with
      | none => .error (.hard ("unknown symbol " ++ sym))
      | some e =>
          let ir := parseIsotopeOpt r1
          let cr := parseCountOpt ir.2
          if ir.1 = 0 then .ok ((cr.1, Frag.atom (unitOfElement e)), cr.2)
          else
            match e.isotopes.find? (fun p => p.1 = ir.1) with
            | some im => .ok ((cr.1, Frag.atom (unitOfIsotope e ir.1 im.2)), cr.2)
            | none => .error (.hard ("not an isotope of " ++ sym))

mutual

/-- `OneOrMore(element)` continued: keep parsing elements until one fails
with a `ParseException`; a `ValueError` propagates. -/
def parseElementsMore (tbl : List ElementData) :
    ℕ → List Char → List (ℚ × Frag) → Except PErr (List (ℚ × Frag) × List Char)
  | 0, _, _ => .error (.hard "fuel")
  | fuel + 1, s, acc =>
      match parseElement tbl s with
      | .error .syn => .ok (acc.reverse, s)
      | .error e => .error e
      | .ok (n, r) => parseElementsMore tbl fuel r (n :: acc)

/-- `implicit_group = count + OneOrMore(element)` with `convert_implicit`:
the leading count does not skip whitespace (the group inherits `count`'s
no-skip); a count of 1 splices the bare element list into the enclosing
token list, any other count wraps it as a single `(count, fragment)` node. -/
def parseImplicitGroup (tbl : List ElementData) :
    ℕ → List Char → Except PErr (List (ℚ × Frag) × List Char)
  | 0, _ => .error (.hard "fuel")
  | fuel + 1, s =>
      let cr := parseCountOpt s
      match parseElement tbl cr.2 with
      | .error e => .error e
      | .ok (n1, s2) =>
          match parseElementsMore tbl fuel s2 [n1] with
          | .error e => .error e
          | .ok (ns, s3) =>
              .ok (if cr.1 = 1 then ns else [(cr.1, Frag.group ns)], s3)

/-- `explicit_group = '(' + formula + ')' + count` with `convert_explicit`:
same splice-or-wrap convention on the trailing count. -/
def parseExplicitGroup (tbl : List ElementData) :
    ℕ → List Char → Except PErr (List (ℚ × Frag) × List Char)
  | 0, _ => .error (.hard "fuel")
  | fuel + 1, s =>
      match skipWS s with
      | '(' :: s1 =>
          (match parseFormulaBody tbl fuel s1 with
           | .error e => .error e
           | .ok (ns, s2) =>
               match skipWS s2 with
               | ')' :: s3 =>
                   let cr := parseCountOpt s3
                   .ok (if cr.1 = 1 then ns else [(cr.1, Frag.group ns)], cr.2)
               | _ => .error .syn)
      | _ => .error .syn

/-- `group = implicit_group | explicit_group` (a `MatchFirst`, which under
pyparsing 1.5.x skips leading whitespace itself): try the implicit form, and
on a `ParseException` the explicit form at the same position. -/
def parseGroup (tbl : List ElementData) :
    ℕ → List Char → Except PErr (List (ℚ × Frag) × List Char)
  | 0, _ => .error (.hard "fuel")
  | fuel + 1, s =>
      let s1 := skipWS s
      match parseImplicitGroup tbl fuel s1 with
      | .ok r => .ok r
      | .error .syn => parseExplicitGroup tbl fuel s1
      | .error e => .error e

/-- `formula = group + ZeroOrMore(Optional('+') + group)`, first group. -/
def parseFormulaBody (tbl : List ElementData) :
    ℕ → List Char → Except PErr (List (ℚ × Frag) × List Char)
  | 0, _ => .error (.hard "fuel")
  | fuel + 1, s =>
      match parseGroup tbl fuel s with
      | .error e => .error e
      | .ok (ns, s1) => parseFormulaMore tbl fuel s1 ns

/-- The `ZeroOrMore(Optional('+') + group)` tail: each iteration skips
whitespace, consumes an optional `+` separator, and parses a group whose
token list is spliced onto the accumulated formula; a `ParseException`
anywhere in the iteration ends the repetition with the position reset to the
iteration's start. -/
def parseFormulaMore (tbl : List ElementData) :
    ℕ → List Char → List (ℚ × Frag) → Except PErr (List (ℚ × Frag) × List Char)
  | 0, _, _ => .error (.hard "fuel")
  | fuel + 1, s, acc =>
      let s1 := skipWS s
      let s2 := match s1 with
                | '+' :: r => r
                | _ => s1
      match parseGroup tbl fuel s2 with
      | .ok (ns, r) => parseFormulaMore tbl fuel r (acc ++ ns)
      | .error .syn => .ok (acc, s)
      | .error e => .error e

end

/-- `grammar = Optional(formula) + StringEnd()`, applied to a whole string
(`parser.parseString`): an empty or all-whitespace input yields the empty
tree; any unconsumed trailing characters are a syntax error. -/
def parseFormulaString (tbl : List ElementData) (input : String) :
    Except PErr (List (ℚ × Frag)) :=
  let s := input.toList
  match parseFormulaBody tbl (4 * s.length + 16) s with
  | .ok (ns, rest) => if skipWS rest = [] then .ok ns else .error .syn
  | .error .syn => if skipWS s = [] then .ok [] else .error .syn
  | .error e => .error e

/-- Hydrogen: natural mass 1, with its isotopes D and T (representative
masses 2 and 3). -/
def elH : ElementData :=
  { symbol := "H", mass := 1, density := none, covalentRadius := 1,
    isotopes := [(2, 2), (3, 3)] }

/-- Boron: a symbol that sorts alphabetically before `"C"`. -/
def elB : ElementData :=
  { symbol := "B", mass := 11, density := none, covalentRadius := 1, isotopes := [] }

/-- Carbon. -/
def elC : ElementData :=
  { symbol := "C", mass := 12, density := none, covalentRadius := 1, isotopes := [] }

/-- Oxygen, with isotope 18 (representative mass 18). -/
def elO : ElementData :=
  { symbol := "O", mass := 16, density := none, covalentRadius := 1,
    isotopes := [(18, 18)] }

/-- Calcium, the one table entry carrying an intrinsic density (a
representative value standing for the database's 1.55 g/cm³). -/
def elCa : ElementData :=
  { symbol := "Ca", mass := 40, density := some 2, covalentRadius := 2,
    isotopes := [] }

/-- The table the grammar resolves symbols against. -/
def stdTable : List ElementData := [elH, elB, elC, elO, elCa]

/-- The natural-hydrogen atomic unit. -/
def uH : AtomicUnit := unitOfElement elH

/-- Deuterium (`H[2]`): isotope mass 2 against element mass 1, so its
natural-to-isotope mass quotient differs from 1. -/
def uD : AtomicUnit := unitOfIsotope elH 2 2

/-- The boron atomic unit. -/
def uB : AtomicUnit := unitOfElement elB

/-- The carbon atomic unit. -/
def uC : AtomicUnit := unitOfElement elC

/-- The oxygen atomic unit. -/
def uO : AtomicUnit := unitOfElement elO

/-- The calcium atomic unit. -/
def uCa : AtomicUnit := unitOfElement elCa

/-- `Formula("H2O")`: two distinct atomic units, so the constructor's
single-unit density default does not fire and its density is `None`. -/
def fH2O : FormulaVal :=
  { struct := [(2, Frag.atom uH), (1, Frag.atom uO)], density := none, name := none }

/-- `Formula("Ca")`: a single atomic unit, so the constructor defaulted its
density to the element's intrinsic density. -/
def fCa : FormulaVal :=
  { struct := [(1, Frag.atom uCa)], density := some 2, name := none }

/-- A formula of one deuterium atom with density 2 set
(`Formula("H[2]", density=2)`). -/
def fD : FormulaVal :=
  { struct := [(1, Frag.atom uD)], density := some 2, name := none }

/-- A two-top-node formula used to probe `__rmul__`'s wrap branch. -/
def fHO : FormulaVal :=
  { struct := [(1, Frag.atom uH), (1, Frag.atom uO)], density := none, name := none }

/-- C1: the claimed density/natural-density round trip fails on the code.
For the one-deuterium formula `fD` with density 2 (natural-to-isotope mass
quotient 1/2), the getter returns `2 / (1/2) = 4` — matching the spec's
`natural_density = density / natural_mass_ratio()` — but re-assigning that
value through the setter, which the source writes as
`density = natural_density / natural_mass_ratio()`, yields density
`4 / (1/2) = 8`, not the original 2 (the setter divides where the claimed
inverse multiplies). -/
theorem natural_density_roundtrip_bug :
    get_natural_density fD = Except.ok 4 ∧
    set_natural_density fD 4 = Except.ok { fD with density := some 8 } ∧
    (8 : ℚ) ≠ 2 :=
  ⟨by with_unfolding_all rfl, by with_unfolding_all rfl, by norm_num⟩

/-- C2: `mix_by_weight` does not drop pairs with quantity ≤ 0.  The filter
comprehension binds `q` to the Formula object (see `formula_gt_zero`), so a
`(H2O, 0)` pair survives, makes the scale minimum 0, and the per-pair
division by the scale raises `ZeroDivisionError`; and a lone `(H2O, -1)`
pair — which the claim says is dropped before any computation — instead
accumulates a full copy of H2O into the result. -/
theorem mix_by_weight_keeps_nonpositive_pairs :
    mix_by_weight [(fH2O, 1), (fH2O, 0)] none none none =
      Except.error MixErr.zeroDivision ∧
    mix_by_weight [(fH2O, -1)] none none none =
      Except.ok { struct := [(2, Frag.atom uH), (1, Frag.atom uO)],
                  density := none, name := none } :=
  ⟨by with_unfolding_all rfl, by with_unfolding_all rfl⟩

/-- C3: the Hill comparator does not put Carbon first.  For boron against
carbon it returns -1 with the arguments in either order: with boron first it
falls into the plain alphabetical branch (`cmp("B", "C") = -1`, boron before
carbon, contradicting Carbon-first), and with carbon first the C/H branch
also returns -1, so the comparator is not even antisymmetric. -/
theorem hill_compare_boron_before_carbon :
    hill_compare uB uC = -1 ∧ hill_compare uC uB = -1 :=
  ⟨by with_unfolding_all rfl, by with_unfolding_all rfl⟩

/-- C4: a mixture call whose (filtered) pair list is empty does not return an
empty Formula — with no density override, both synthesizers fall into the
density derivation, which divides the empty result's mass 0 by the volume
`0 / scale = 0` and raises `ZeroDivisionError`. -/
theorem mix_empty_raises_zero_division :
    mix_by_weight [] none none none = Except.error MixErr.zeroDivision ∧
    mix_by_volume [] none none none = Except.error MixErr.zeroDivision :=
  ⟨by with_unfolding_all rfl, by with_unfolding_all rfl⟩

/-- C5 counterexample: the tree `[(2, [(3, H)])]` — an internal node with
multiplier 2 and a single child — renders as `"(H3)2"`, which contains a
parenthesis, though the claim says a one-child internal node is rendered
without parentheses. -/
theorem str_atoms_single_child_parenthesized :
    str_atoms [(2, Frag.group [(3, Frag.atom uH)])] = "(H3)2" ∧
    ("(H3)2".toList.contains '(') = true :=
  ⟨by with_unfolding_all rfl, by rfl⟩

/-- C5 amended: string rendering parenthesizes an internal node and suffixes
its count exactly when the node's own multiplier is not 1, regardless of how
many children the node has. -/
theorem str_atoms_group_paren_iff_multiplier (c : ℚ) (g : List (ℚ × Frag)) :
    (c = 1 → str_atoms [(c, Frag.group g)] = str_atoms g) ∧
    (c ≠ 1 → str_atoms [(c, Frag.group g)] = "(" ++ str_atoms g ++ ")" ++ fmtG c) := by
  constructor <;> intro h <;> simp [str_atoms, str_atoms_node, h]

/-- C5 witness: the amended parenthesization rule evaluated on a one-child
node with multiplier 1 and with multiplier 2. -/
theorem str_atoms_group_paren_iff_multiplier_witness :
    str_atoms [((1 : ℚ), Frag.group [((3 : ℚ), Frag.atom uH)])] =
      str_atoms [((3 : ℚ), Frag.atom uH)] ∧
    str_atoms [((2 : ℚ), Frag.group [((3 : ℚ), Frag.atom uH)])] =
      "(" ++ str_atoms [((3 : ℚ), Frag.atom uH)] ++ ")" ++ fmtG 2 :=
  ⟨(str_atoms_group_paren_iff_multiplier 1 [((3 : ℚ), Frag.atom uH)]).1 rfl,
   (str_atoms_group_paren_iff_multiplier 2 [((3 : ℚ), Frag.atom uH)]).2 (by norm_num)⟩

/-- C6 counterexample: `1 * a` for a two-top-node formula returns the
structure unchanged, not the claimed wrap `[(1, a.structure)]` (the source
skips all rewriting when the multiplier is 1 or the structure is empty). -/
theorem rmul_one_multi_node_unchanged :
    rmul 1 fHO = fHO ∧
    fHO.struct.length = 2 ∧
    (rmul 1 fHO).struct ≠ [((1 : ℚ), Frag.group fHO.struct)] := by
  refine ⟨rfl, rfl, fun h => ?_⟩
  have := congrArg List.length h
  simp [rmul, fHO] at this

/-- C6 amended: `n * a` leaves the tree unchanged when `n = 1` or the tree is
empty; otherwise a single top-level node has its multiplier scaled by `n`,
and a tree with more than one top-level node is wrapped in the single node
`(n, a.structure)`. -/
theorem rmul_spec (n : ℚ) (a : FormulaVal) :
    (n = 1 → rmul n a = a) ∧
    (a.struct = [] → rmul n a = a) ∧
    (n ≠ 1 → ∀ q f, a.struct = [(q, f)] → (rmul n a).struct = [(n * q, f)]) ∧
    (n ≠ 1 → ∀ p ps, a.struct = p :: ps → ps ≠ [] →
      (rmul n a).struct = [(n, Frag.group a.struct)]) := by
  obtain ⟨s, d, nm⟩ := a
  by_cases hn : n = 1
  · subst hn
    exact ⟨fun _ => by simp [rmul], fun _ => by simp [rmul],
           fun h => absurd rfl h, fun h => absurd rfl h⟩
  · refine ⟨fun h => absurd h hn, ?_, ?_, ?_⟩
    · intro h
      dsimp only at h
      subst h
      simp [rmul, hn]
    · intro _ q f h
      dsimp only at h
      subst h
      simp [rmul, hn]
    · intro _ p ps h hps
      dsimp only at h
      subst h
      cases ps with
      | nil => exact absurd rfl hps
      | cons p2 ps2 => simp [rmul, hn]

/-- C6 witness: the amended multiplication rule evaluated at `n = 1` on a
two-node formula and at `n = 2` on the same formula (wrap branch). -/
theorem rmul_spec_witness :
    rmul 1 fHO = fHO ∧
    (rmul 2 fHO).struct = [((2 : ℚ), Frag.group fHO.struct)] :=
  ⟨(rmul_spec 1 fHO).1 rfl,
   (rmul_spec 2 fHO).2.2.2 (by norm_num) (1, Frag.atom uH) [(1, Frag.atom uO)] rfl
     (by simp)⟩

/-- C7: parsing `"CaCO3+6H2O"` and tallying the tree yields exactly the
mapping Ca ↦ 1, C ↦ 1, O ↦ 9, H ↦ 12 (O: 3 from the carbonate plus 6 from
the water scaled by the group multiplier 6; H: 12 from 6 × H2). -/
theorem tally_caco3_6h2o :
    (parseFormulaString stdTable "CaCO3+6H2O").map count_atoms =
      Except.ok [(uCa, 1), (uC, 1), (uO, 9), (uH, 12)] := by
  with_unfolding_all rfl

/-- C8: the `+` separator between groups is cosmetic — `"CaCO3 6H2O"` and
`"CaCO3+6H2O"` parse to identical trees, namely the spliced carbonate
elements followed by the single water group node. -/
theorem plus_separator_cosmetic :
    parseFormulaString stdTable "CaCO3 6H2O" = parseFormulaString stdTable "CaCO3+6H2O" ∧
    parseFormulaString stdTable "CaCO3+6H2O" =
      Except.ok [(1, Frag.atom uCa), (1, Frag.atom uC), (3, Frag.atom uO),
                 (6, Frag.group [(2, Frag.atom uH), (1, Frag.atom uO)])] :=
  ⟨by with_unfolding_all rfl, by with_unfolding_all rfl⟩

/-- A calcium formula whose density has been set to the float 0.0:
`density` is a plain public attribute, so `f.density = 0.0` (or driving the
`natural_density` setter with 0.0) produces exactly this value. -/
def fCaZero : FormulaVal :=
  { struct := [(1, Frag.atom uCa)], density := some 0, name := none }

/-- C9 counterexample: the precondition check `all(f.density for f,_ in
pairs)` uses Python truthiness, not an unset test.  For the single pair
`(Ca with density 0.0, 1)` every component's density *is* set — none is
unset — yet `mix_by_volume` raises the "Need a density for each formula"
precondition error, so the error does not fire "if and only if some
component's density is unset". -/
theorem mix_by_volume_zero_density_raises :
    mix_by_volume [(fCaZero, 1)] none none none = Except.error MixErr.needDensity ∧
    fCaZero.density = some 0 ∧
    fCaZero.density ≠ none :=
  ⟨by with_unfolding_all rfl, rfl, by simp [fCaZero]⟩

/-- C9 amended: `mix_by_volume` fails with the "Need a density for each
formula" precondition error if and only if some component's density is unset
or set to zero (the check is Python truthiness of `f.density` over the full
pair list); the check runs before the quantity filter and the accumulation,
and once it passes the body can only raise `ZeroDivisionError`, never that
precondition error. -/
theorem mix_by_volume_error_iff_falsy_density (pairs : List (FormulaVal × ℚ))
    (d nd : Option ℚ) (nm : Option String) :
    mix_by_volume pairs d nd nm = Except.error MixErr.needDensity ↔
      ∃ p ∈ pairs, (p.1.density = none ∨ p.1.density = some 0) := by
  unfold mix_by_volume
  by_cases hall : (pairs.all fun p => truthyQ p.1.density) = true
  · rw [if_pos hall]
    constructor
    · intro hc
      exfalso
      cases hcore : mix_volume_core pairs d nd nm with
      | ok r => rw [hcore] at hc; simp [Except.mapError] at hc
      | error e => rw [hcore] at hc; simp [Except.mapError] at hc
    · rintro ⟨p, hp, hfalsy⟩
      rw [List.all_eq_true] at hall
      have hpt := hall p hp
      rcases hfalsy with hnone | hzero
      · rw [hnone] at hpt
        simp [truthyQ] at hpt
      · rw [hzero] at hpt
        simp [truthyQ] at hpt
  · rw [if_neg hall]
    constructor
    · intro _
      rw [List.all_eq_true] at hall
      push_neg at hall
      obtain ⟨p, hp, hpt⟩ := hall
      refine ⟨p, hp, ?_⟩
      cases hd : p.1.density with
      | none => exact Or.inl rfl
      | some x =>
          rw [hd] at hpt
          simp [truthyQ] at hpt
          exact Or.inr (by rw [hpt])
    · intro _
      rfl

/-- C10: `a + b` always carries density `None` and name `None` (the fresh
result bypasses the constructor and its single-unit density default), even
when `a` or `b` carries metadata; by contrast `n * a` copies `a`'s density
and name unchanged through every branch. -/
theorem add_fresh_metadata_rmul_copies (a b : FormulaVal) (n : ℚ) :
    (add a b).density = none ∧ (add a b).name = none ∧
    (rmul n a).density = a.density ∧ (rmul n a).name = a.name := by
  refine ⟨rfl, rfl, ?_, ?_⟩ <;>
    · unfold rmul
      split
      · rfl
      · split <;> rfl
